import Mathlib

/-!
Verification of the TMS pulse-train generation / field-to-current conversion
protocol (`src/tms.py`) and the LFP/spike analysis pipeline
(`src/analyze_rtms_lfp.py`) of the HL23_Yao_rTMS_LFP repository.

The Python source is shallowly embedded: floats become exact rationals (ℚ),
Python `int()` truncation becomes `pyInt`, dictionaries become association
lists, fallible operations (Python exceptions such as `ZeroDivisionError`)
return `Option` with `none` marking a raised error.
-/

/-- Python `int(x)` on a float: truncation toward zero. -/
def pyInt (q : ℚ) : ℤ := if 0 ≤ q then ⌊q⌋ else ⌈q⌉

/-! ## src/tms.py -/

/-- The fixed `geometry` conversion table of `convert_field_to_current`
(src/tms.py lines 14-19). -/
def geometry : List (String × List (String × ℚ)) :=
  [("HL23PYR", [("soma", 0.025), ("apical", 0.05), ("basal", 0.03)]),
   ("HL23PV", [("soma", 0.015)]),
   ("HL23SST", [("soma", 0.015)]),
   ("HL23VIP", [("soma", 0.015)])]

/-- `convert_field_to_current` (src/tms.py lines 12-21):
`geometry.get(cell_type, {}).get(compartment, 0.02)` times the field. -/
def convert_field_to_current (field_Vm : ℚ) (cell_type compartment : String) : ℚ :=
  let conversion_factor := (((geometry.lookup cell_type).getD []).lookup compartment).getD 0.02
  field_Vm * conversion_factor

/-- A NEURON `IClamp` as created by the TMS module: attachment section,
onset delay (ms), duration (ms) and amplitude (nA). -/
structure IClamp where
  sec : String
  delay : ℚ
  dur : ℚ
  amp : ℚ
  deriving DecidableEq, Repr

/-- `apply_biphasic_pulse` (src/tms.py lines 24-40): two IClamps of duration
`duration / 2` each, the first at `onset` with amplitude `amp_nA`, the second
immediately after with amplitude `-amp_nA`. -/
def apply_biphasic_pulse (soma_sec : String) (onset amp_nA duration : ℚ) : List IClamp :=
  let phase_dur := duration / 2
  [⟨soma_sec, onset, phase_dur, amp_nA⟩,
   ⟨soma_sec, onset + phase_dur, phase_dur, -amp_nA⟩]

/-- `cfg.tms_params` (the fields read by src/tms.py). -/
structure TmsParams where
  ef_amp_V_per_m : ℚ
  freq_Hz : ℚ
  stim_start_ms : ℚ
  stim_end_ms : ℚ
  width_ms : ℚ
  deriving DecidableEq, Repr

/-- The part of the shared `cfg` object the TMS module reads:
`tms_params` is `none` when `cfg` has no `tms_params` attribute. -/
structure Cfg where
  tms_params : Option TmsParams
  deriving DecidableEq, Repr

/-- `n_pulses` as computed inside `apply_tms_from_params`
(src/tms.py line 64): `int(stim_duration * freq_Hz / 1000.0)`. -/
def n_pulses_applicator (stim_start_ms stim_end_ms freq_Hz : ℚ) : ℤ :=
  pyInt ((stim_end_ms - stim_start_ms) * freq_Hz / 1000)

/-- `n_pulses` as computed inside `get_tms_pulse_times`
(src/tms.py line 117): `int(stim_duration * freq_Hz / 1000.0)`. -/
def n_pulses_helper (stim_start_ms stim_end_ms freq_Hz : ℚ) : ℤ :=
  pyInt ((stim_end_ms - stim_start_ms) * freq_Hz / 1000)

/-- `_n_pulses` as computed by the quick-test script
(src/test_rtms_lfp_quick.py lines 59-60):
`int(_tms_duration * cfg.tms_params['freq_Hz'] / 1000.0)`. -/
def n_pulses_quicktest (stim_start_ms stim_end_ms freq_Hz : ℚ) : ℤ :=
  pyInt ((stim_end_ms - stim_start_ms) * freq_Hz / 1000)

/-- `get_tms_pulse_times` (src/tms.py lines 109-122).  With `tms_params`
absent it returns `[]`; with `freq_Hz = 0` the expression
`1000.0 / freq_Hz` raises `ZeroDivisionError` (modelled as `none`). -/
def get_tms_pulse_times (cfg : Cfg) : Option (List ℚ) :=
  match cfg.tms_params with
  | none => some []
  | some p =>
    if p.freq_Hz = 0 then none
    else
      let n := n_pulses_helper p.stim_start_ms p.stim_end_ms p.freq_Hz
      let pulse_interval := 1000 / p.freq_Hz
      some ((List.range n.toNat).map fun (i : ℕ) => p.stim_start_ms + (i : ℚ) * pulse_interval)

/-- A cell of `sim.net.cells` as seen by `apply_tms_from_params`:
`cell.tags.get('pop')` and the ordered names of `cell.secs`. -/
structure SimCell where
  pop : Option String
  secs : List String
  deriving DecidableEq, Repr

/-- `sim.net` as seen by the TMS module. -/
structure Network where
  cells : List SimCell
  deriving DecidableEq, Repr

/-- Soma-section resolution of `apply_tms_from_params` (src/tms.py lines
85-92): `soma_0`, else `soma`, else the first declared section;
`list(cell.secs.keys())[0]` raises `IndexError` on a cell with no
sections (modelled as `none`). -/
def resolve_soma (secs : List String) : Option String :=
  if "soma_0" ∈ secs then some "soma_0"
  else if "soma" ∈ secs then some "soma"
  else secs.head?

/-- The pulse-train loop body of `apply_tms_from_params` (src/tms.py lines
95-98) for one cell: pulses `0, …, n-1` in order, two IClamps each. -/
def pulse_train (sec : String) (stim_start pulse_interval amp width : ℚ) : ℕ → List IClamp
  | 0 => []
  | n + 1 =>
    pulse_train sec stim_start pulse_interval amp width n ++
      apply_biphasic_pulse sec (stim_start + (n : ℚ) * pulse_interval) amp width

/-- The cell loop of `apply_tms_from_params` (src/tms.py lines 82-100)
restricted to the already-filtered matching cells: for each cell resolve a
soma section (error if none) and extend the clamp list with its pulse
train. -/
def collect_clamps (stim_start pulse_interval amp width : ℚ) (n : ℕ) :
    List SimCell → Option (List IClamp)
  | [] => some []
  | c :: rest =>
    match resolve_soma c.secs with
    | none => none
    | some sec =>
      match collect_clamps stim_start pulse_interval amp width n rest with
      | none => none
      | some acc =>
        some (pulse_train sec stim_start pulse_interval amp width n ++ acc)

/-- `apply_tms_from_params` (src/tms.py lines 43-106).  Returns the list of
created IClamps; `none` models a raised exception (`ZeroDivisionError` at
`freq_Hz = 0` from line 65, `IndexError` from line 91 on a matching cell
with no sections). -/
def apply_tms_from_params (net : Network) (cfg : Cfg) (target_pop : String) :
    Option (List IClamp) :=
  match cfg.tms_params with
  | none => some []
  | some p =>
    if p.freq_Hz = 0 then none
    else
      let n_pulses := n_pulses_applicator p.stim_start_ms p.stim_end_ms p.freq_Hz
      let pulse_interval := 1000 / p.freq_Hz
      let amp_nA := convert_field_to_current p.ef_amp_V_per_m target_pop "soma"
      collect_clamps p.stim_start_ms pulse_interval amp_nA p.width_ms n_pulses.toNat
        (net.cells.filter fun c => decide (c.pop = some target_pop))

/-! ## src/analyze_rtms_lfp.py -/

/-- An entry of the loaded record's `net.cells` roster as read by the
analyzer: `cell['gid']` and `cell.get('tags', {}).get('pop')`. -/
structure NetCell where
  gid : ℤ
  pop : Option String
  deriving DecidableEq, Repr

/-- An entry of the record's `net.pops` section: only its optional
`cellGids` list is ever read (src/analyze_rtms_lfp.py line 112). -/
structure PopRec where
  cellGids : Option (List ℤ)
  deriving DecidableEq, Repr

/-- The record's `net` section; `cells` / `pops` are `none` when the
corresponding key is absent. -/
structure NetData where
  cells : Option (List NetCell)
  pops : Option (List (String × PopRec))
  deriving DecidableEq, Repr

/-- The record's `simConfig` section: only `cellNumber` and `duration`
matter for the properties verified here. -/
structure Config where
  cellNumber : Option (List (String × ℕ))
  duration : Option ℚ
  deriving DecidableEq, Repr

/-- A loaded simulation record (the state of `RTMSLFPAnalyzer` after
`load_data`): spike times and ids (empty when absent, aligned
index-for-index per the record invariant), the optional `net` section and
the optional `simConfig` section. -/
structure Record where
  spkt : List ℚ
  spkid : List ℤ
  net : Option NetData
  config : Option Config
  deriving DecidableEq, Repr

/-- `self.duration` after `load_data` (src/analyze_rtms_lfp.py lines
88-93): `simConfig.get('duration', 2000.0)` when a config section is
present, else `2000.0`. -/
def Record.duration (r : Record) : ℚ :=
  match r.config with
  | some c => c.duration.getD 2000
  | none => 2000

/-- The value returned by `get_population_cell_count`: normally an `int`,
but the `net.pops` tier returns the raw `cellGids` value, a list
(src/analyze_rtms_lfp.py line 112). -/
inductive PyNum where
  | int (n : ℤ)
  | list (l : List ℤ)
  deriving DecidableEq, Repr

/-- Tier 3 of `get_population_cell_count` (src/analyze_rtms_lfp.py lines
115-119): count roster cells whose pop tag matches, else 0. -/
def count_from_cells (r : Record) (pop_name : String) : PyNum :=
  match r.net with
  | some net =>
    match net.cells with
    | some cells => .int (cells.countP fun c => decide (c.pop = some pop_name))
    | none => .int 0
  | none => .int 0

/-- Tier 2 of `get_population_cell_count` (src/analyze_rtms_lfp.py lines
110-112): `net.pops[pop].get('cellGids', 0)` — note this returns the gid
list itself, not its length. -/
def count_from_pops (r : Record) (pop_name : String) : PyNum :=
  match r.net with
  | some net =>
    match net.pops with
    | some pops =>
      match pops.lookup pop_name with
      | some pr =>
        match pr.cellGids with
        | some l => .list l
        | none => .int 0
      | none => count_from_cells r pop_name
    | none => count_from_cells r pop_name
  | none => count_from_cells r pop_name

/-- `get_population_cell_count` (src/analyze_rtms_lfp.py lines 95-119):
`simConfig.cellNumber` first, then `net.pops`, then counting roster
entries, else 0. -/
def get_population_cell_count (r : Record) (pop_name : String) : PyNum :=
  match r.config with
  | some c =>
    match c.cellNumber with
    | some tbl => .int ((tbl.lookup pop_name).getD 0)
    | none => count_from_pops r pop_name
  | none => count_from_pops r pop_name

/-- The fixed population order assumed by the gid-range fallback
(src/analyze_rtms_lfp.py line 140). -/
def popOrder : List String := ["HL23PYR", "HL23PV", "HL23SST", "HL23VIP"]

/-- The `gid_start` walk of `get_population_gids` (src/analyze_rtms_lfp.py
lines 142-147): contiguous ranges in `popOrder`, empty if the name is
never matched. -/
def gidWalk (tbl : List (String × ℕ)) (pop_name : String) :
    List String → ℕ → List ℤ
  | [], _ => []
  | p :: rest, gid_start =>
    let count := (tbl.lookup p).getD 0
    if p = pop_name then (List.range count).map fun (i : ℕ) => (gid_start : ℤ) + (i : ℤ)
    else gidWalk tbl pop_name rest (gid_start + count)

/-- The `cellNumber` fallback of `get_population_gids`
(src/analyze_rtms_lfp.py lines 136-149). -/
def gids_fallback (r : Record) (pop_name : String) : List ℤ :=
  match r.config with
  | some c =>
    match c.cellNumber with
    | some tbl => gidWalk tbl pop_name popOrder 0
    | none => []
  | none => []

/-- `get_population_gids` (src/analyze_rtms_lfp.py lines 121-149):
the explicit `net.cells` roster first, else contiguous ranges inferred
from `cellNumber`, else `[]`. -/
def get_population_gids (r : Record) (pop_name : String) : List ℤ :=
  match r.net with
  | some net =>
    match net.cells with
    | some cells =>
      (cells.filter fun c => decide (c.pop = some pop_name)).map NetCell.gid
    | none => gids_fallback r pop_name
  | none => gids_fallback r pop_name

/-- `get_population_spikes` (src/analyze_rtms_lfp.py lines 151-169):
spike times whose aligned id is among the population's gids; `[]` when the
population resolves to no gids. -/
def get_population_spikes (r : Record) (pop_name : String) : List ℚ :=
  let pop_gids := get_population_gids r pop_name
  if pop_gids.isEmpty then []
  else ((r.spkt.zip r.spkid).filter fun ti => decide (ti.2 ∈ pop_gids)).map Prod.fst

/-- `np.arange(start, stop, step)` over exact rationals: the
`k`-th element is `start + k * step`, with `ceil((stop - start) / step)`
elements (numpy's length formula); meaningful for `step ≠ 0`. -/
def np_arange (start stop step : ℚ) : List ℚ :=
  (List.range (⌈(stop - start) / step⌉).toNat).map fun (k : ℕ) => start + (k : ℚ) * step

/-- `np.histogram(xs, bins=edges)` counts for strictly increasing edges:
bin `j` is `[e_j, e_{j+1})`, except the last bin which is closed. -/
def hist_counts (xs : List ℚ) (edges : List ℚ) : List ℕ :=
  let pairs := edges.zip edges.tail
  let n := pairs.length
  pairs.enum.map fun je =>
    xs.countP fun x =>
      decide (je.2.1 ≤ x) &&
        (decide (x < je.2.2) || (je.1 == n - 1 && decide (x ≤ je.2.2)))

/-- `compute_firing_rate_histogram` (src/analyze_rtms_lfp.py lines
171-200), returning `(bin_centers, firing_rates)`.  `none` models a raised
exception: `ZeroDivisionError` for `bin_size = 0`, `np.zeros` of a
negative length, a non-increasing `np.arange`/`np.histogram` grid, or
dividing the counts by a `cellGids` list returned by the `net.pops` tier
of `get_population_cell_count`. -/
def compute_firing_rate_histogram (r : Record) (pop_name : String) (bin_size : ℚ) :
    Option (List ℚ × List ℚ) :=
  let spike_times := get_population_spikes r pop_name
  let n_cells := get_population_cell_count r pop_name
  if spike_times.isEmpty ∨ n_cells = .int 0 then
    if bin_size = 0 then none
    else
      let n_bins := pyInt (r.duration / bin_size)
      if n_bins < 0 then none
      else
        some ((List.range n_bins.toNat).map fun (i : ℕ) => (i : ℚ) * bin_size + bin_size / 2,
              List.replicate n_bins.toNat 0)
  else
    if bin_size ≤ 0 then none
    else
      let bin_edges := np_arange 0 (r.duration + bin_size) bin_size
      if bin_edges.length < 2 then none
      else
        match n_cells with
        | .list _ => none
        | .int k =>
          let counts := hist_counts spike_times bin_edges
          let firing_rates := counts.map fun c => (c : ℚ) / (bin_size / 1000) / (k : ℚ)
          let pairs := bin_edges.zip bin_edges.tail
          some (pairs.map (fun ab => (ab.1 + ab.2) / 2), firing_rates)

/-! ## Specification-side definitions (for refinement comparison) -/

/-- The cell-type-level default factor of the specification's three-tier
fallback (§4.1).  In the source this role is played by the single constant
`0.02` (the default of the inner `.get`), identical for every cell type. -/
def cell_type_default (_cell_type : String) : ℚ := 0.02

/-- The global default factor of the specification's three-tier fallback
(§4.1); in the source the constant `0.02`. -/
def global_default : ℚ := 0.02

/-- The factor resolution exactly as the specification words it (§4.1):
the `(cellType, compartment)` entry if present, else the cell-type-level
default, else the global default. -/
def spec_resolve_factor (cell_type compartment : String) : ℚ :=
  match geometry.lookup cell_type with
  | some tbl =>
    match tbl.lookup compartment with
    | some v => v
    | none => cell_type_default cell_type
  | none => global_default

/-- The table tier of the specification's §4.5 resolution ladder, reached
only when no roster is present (so the roster-counting tier yields
nothing). -/
def spec_ladder_count_tbl (r : Record) (pop_name : String) : ℕ :=
  match r.config with
  | some c =>
    match c.cellNumber with
    | some tbl => (tbl.lookup pop_name).getD 0
    | none => 0
  | none => 0

/-- The population-count resolution ladder in the order the specification
claims for it (§4.5): (1) explicit per-cell roster, (2) configured
cell-count table, (3) counting roster entries, (4) zero. -/
def spec_ladder_count (r : Record) (pop_name : String) : ℕ :=
  match r.net with
  | some net =>
    match net.cells with
    | some cells => (cells.filter fun c => decide (c.pop = some pop_name)).length
    | none => spec_ladder_count_tbl r pop_name
  | none => spec_ladder_count_tbl r pop_name

/-- The record carries no explicit per-cell roster (`net.cells` absent). -/
def rosterAbsent (r : Record) : Prop :=
  match r.net with
  | some net => net.cells = none
  | none => True

/-- The contiguous gid range `[start, start + len)`. -/
def intRange (start len : ℕ) : List ℤ :=
  (List.range len).map fun (i : ℕ) => (start : ℤ) + (i : ℤ)

/-- Count table lookup with the code's default `0`. -/
def cntOf (tbl : List (String × ℕ)) (p : String) : ℕ := (tbl.lookup p).getD 0

/-! ## Concrete instances -/

/-- The quick-test stimulation parameters (§8 scenario): 40 V/m, 10 Hz,
window [500, 1500] ms, width 1 ms. -/
def pW : TmsParams := ⟨40, 10, 500, 1500, 1⟩

/-- Stimulation parameters with `freq_Hz = 0`. -/
def pFreq0 : TmsParams := ⟨40, 0, 500, 1500, 1⟩

/-- Stimulation parameters with an inverted window (`stim_end < stim_start`). -/
def pNegWindow : TmsParams := ⟨40, 10, 1000, 900, 1⟩

/-- Stimulation parameters with a positive frequency and an empty window. -/
def pEmptyWindow : TmsParams := ⟨40, 10, 1500, 500, 1⟩

/-- A one-cell network whose cell belongs to `HL23PYR` and has a `soma`
section. -/
def netW : Network := ⟨[⟨some "HL23PYR", ["soma"]⟩]⟩

/-- A record carrying both a one-cell roster tagged `HL23PYR` and a
`cellNumber` table claiming 5 pyramidal cells. -/
def rLadder : Record :=
  ⟨[], [], some ⟨some [⟨0, some "HL23PYR"⟩], none⟩, some ⟨some [("HL23PYR", 5)], none⟩⟩

/-- A record with duration 25 ms and no cells at all. -/
def rFloorGrid : Record := ⟨[], [], none, some ⟨none, some 25⟩⟩

/-- The §8 round-trip record: spikes `[5, 12, 12]` with ids `[0, 0, 1]`,
duration 20 ms, and a two-cell `HL23PYR` roster with gids 0 and 1. -/
def rRoundTrip : Record :=
  ⟨[5, 12, 12], [0, 0, 1],
   some ⟨some [⟨0, some "HL23PYR"⟩, ⟨1, some "HL23PYR"⟩], none⟩,
   some ⟨none, some 20⟩⟩

/-- An entirely empty record (no spikes, no net, no config). -/
def rEmpty : Record := ⟨[], [], none, none⟩

/-- The cell-count table 2 / 1 / 1 / 1 for the four populations. -/
def tblPartition : List (String × ℕ) :=
  [("HL23PYR", 2), ("HL23PV", 1), ("HL23SST", 1), ("HL23VIP", 1)]

/-- A config carrying only the cell-count table `tblPartition`. -/
def cfgPartition : Config := ⟨some tblPartition, none⟩

/-- A roster-free record whose config carries the cell-count table
2 / 1 / 1 / 1 for the four populations. -/
def rPartition : Record := ⟨[], [], none, some cfgPartition⟩

/-! ## Helper lemmas -/

theorem pyInt_eq_floor_of_nonneg {q : ℚ} (h : 0 ≤ q) : pyInt q = ⌊q⌋ := by
  simp [pyInt, h]

theorem pyInt_nonpos_of_nonpos {q : ℚ} (h : q ≤ 0) : pyInt q ≤ 0 := by
  unfold pyInt
  split
  · exact Int.floor_nonpos h
  · exact Int.ceil_le.mpr (by exact_mod_cast h)

theorem pyInt_toNat_eq_floor_toNat (q : ℚ) : (pyInt q).toNat = ⌊q⌋.toNat := by
  unfold pyInt
  split
  · rfl
  · rename_i h
    have hq : q ≤ 0 := le_of_not_le fun hc => h hc
    have h1 : ⌈q⌉ ≤ 0 := Int.ceil_le.mpr (by exact_mod_cast hq)
    have h2 : ⌊q⌋ ≤ 0 := Int.floor_nonpos hq
    omega

theorem resolve_soma_isSome {secs : List String} (h : secs ≠ []) :
    ∃ sec, resolve_soma secs = some sec := by
  unfold resolve_soma
  split
  · exact ⟨_, rfl⟩
  · split
    · exact ⟨_, rfl⟩
    · cases secs with
      | nil => exact absurd rfl h
      | cons a l => exact ⟨a, rfl⟩

theorem pulse_train_length (sec : String) (s iv amp w : ℚ) (n : ℕ) :
    (pulse_train sec s iv amp w n).length = 2 * n := by
  induction n with
  | zero => rfl
  | succ k ih =>
    simp only [pulse_train, List.length_append, ih, apply_biphasic_pulse]
    simp
    omega

theorem pulse_train_mem (sec : String) (s iv amp w : ℚ) (n : ℕ) :
    ∀ cl ∈ pulse_train sec s iv amp w n,
      cl.dur = w / 2 ∧ (cl.amp = amp ∨ cl.amp = -amp) := by
  induction n with
  | zero => intro cl hcl; simp [pulse_train] at hcl
  | succ k ih =>
    intro cl hcl
    simp only [pulse_train, List.mem_append] at hcl
    rcases hcl with hcl | hcl
    · exact ih cl hcl
    · simp only [apply_biphasic_pulse, List.mem_cons, List.mem_singleton] at hcl
      rcases hcl with rfl | rfl | h
      · exact ⟨rfl, Or.inl rfl⟩
      · exact ⟨rfl, Or.inr rfl⟩
      · simp at h

theorem collect_clamps_sound (s iv amp w : ℚ) (n : ℕ) :
    ∀ l : List SimCell, (∀ c ∈ l, c.secs ≠ []) →
    ∃ cls, collect_clamps s iv amp w n l = some cls ∧
      cls.length = l.length * (2 * n) ∧
      ∀ cl ∈ cls, cl.dur = w / 2 ∧ (cl.amp = amp ∨ cl.amp = -amp) := by
  intro l
  induction l with
  | nil => intro _; exact ⟨[], rfl, by simp, by simp⟩
  | cons c rest ih =>
    intro h
    obtain ⟨sec, hsec⟩ := resolve_soma_isSome (h c (List.mem_cons_self c rest))
    obtain ⟨cls, hcls, hlen, hmem⟩ := ih fun c' hc' => h c' (List.mem_cons_of_mem _ hc')
    refine ⟨pulse_train sec s iv amp w n ++ cls, ?_, ?_, ?_⟩
    · simp only [collect_clamps, hsec, hcls]
    · simp only [List.length_append, pulse_train_length, hlen, List.length_cons]
      ring
    · intro cl hcl
      rcases List.mem_append.mp hcl with hcl | hcl
      · exact pulse_train_mem sec s iv amp w n cl hcl
      · exact hmem cl hcl

theorem gidWalk_not_mem (tbl : List (String × ℕ)) (pop_name : String) :
    ∀ (l : List String) (s : ℕ), pop_name ∉ l → gidWalk tbl pop_name l s = [] := by
  intro l
  induction l with
  | nil => intro s _; rfl
  | cons p rest ih =>
    intro s h
    have hne : ¬(p = pop_name) := fun hp => h (hp ▸ List.mem_cons_self p rest)
    have hrest : pop_name ∉ rest := fun hr => h (List.mem_cons_of_mem _ hr)
    simp only [gidWalk, if_neg hne]
    exact ih _ hrest

theorem gidWalk_length_of_mem (tbl : List (String × ℕ)) (pop_name : String) :
    ∀ (l : List String) (s : ℕ), pop_name ∈ l →
      (gidWalk tbl pop_name l s).length = cntOf tbl pop_name := by
  intro l
  induction l with
  | nil => intro s h; exact absurd h (List.not_mem_nil _)
  | cons p rest ih =>
    intro s h
    by_cases hp : p = pop_name
    · subst hp
      simp [gidWalk, cntOf]
    · have hrest : pop_name ∈ rest := by
        rcases List.mem_cons.mp h with rfl | hr
        · exact absurd rfl hp
        · exact hr
      simp only [gidWalk, if_neg hp]
      exact ih _ hrest

theorem gids_eq_walk {r : Record} {c : Config} {tbl : List (String × ℕ)}
    (hc : r.config = some c) (ht : c.cellNumber = some tbl) (hr : rosterAbsent r)
    (pop_name : String) :
    get_population_gids r pop_name = gidWalk tbl pop_name popOrder 0 := by
  unfold get_population_gids
  unfold rosterAbsent at hr
  cases hn : r.net with
  | none => simp only [gids_fallback, hc, ht]
  | some net =>
    rw [hn] at hr
    simp only [hr]
    simp only [gids_fallback, hc, ht]

theorem intRange_append (s m k : ℕ) :
    intRange s m ++ intRange (s + m) k = intRange s (m + k) := by
  unfold intRange
  rw [List.range_add, List.map_append, List.map_map]
  congr 1
  apply List.map_congr_left
  intro x _
  simp only [Function.comp_apply]
  push_cast
  ring

theorem intRange_nodup (s m : ℕ) : (intRange s m).Nodup := by
  unfold intRange
  refine List.Nodup.map ?_ (List.nodup_range m)
  intro a b hab
  have h2 : (a : ℤ) = (b : ℤ) := add_left_cancel hab
  exact_mod_cast h2

/-! ## Claim theorems -/

/-- C1: for every configuration with `frequencyHz > 0` and
`windowEnd > windowStart`, the pulse scheduler returns exactly
`floor((windowEnd - windowStart) * frequencyHz / 1000)` pulses; the i-th
onset is `windowStart + i * (1000 / frequencyHz)`, so onsets are strictly
increasing with constant spacing `1000 / frequencyHz`; and each pulse is
two phases of equal duration `pulseWidthMs / 2` whose amplitudes sum to
exactly zero. -/
theorem tms_pulse_scheduler_correct (p : TmsParams)
    (hf : 0 < p.freq_Hz) (hw : p.stim_start_ms < p.stim_end_ms) :
    ∃ ts : List ℚ,
      get_tms_pulse_times ⟨some p⟩ = some ts ∧
      (ts.length : ℤ) = ⌊(p.stim_end_ms - p.stim_start_ms) * p.freq_Hz / 1000⌋ ∧
      (∀ i : ℕ, i < ts.length →
        ts[i]? = some (p.stim_start_ms + (i : ℚ) * (1000 / p.freq_Hz))) ∧
      (∀ i : ℕ, i + 1 < ts.length → ∃ a b : ℚ,
        ts[i]? = some a ∧ ts[i + 1]? = some b ∧
        a < b ∧ b - a = 1000 / p.freq_Hz) ∧
      (∀ (sec : String) (onset amp : ℚ), ∃ c1 c2 : IClamp,
        apply_biphasic_pulse sec onset amp p.width_ms = [c1, c2] ∧
        c1.dur = p.width_ms / 2 ∧ c2.dur = p.width_ms / 2 ∧
        c2.delay = c1.delay + p.width_ms / 2 ∧ c1.amp + c2.amp = 0) := by
  have hfne : p.freq_Hz ≠ 0 := ne_of_gt hf
  have hxpos : 0 ≤ (p.stim_end_ms - p.stim_start_ms) * p.freq_Hz / 1000 := by
    apply div_nonneg _ (by norm_num)
    exact mul_nonneg (by linarith) hf.le
  have hn : n_pulses_helper p.stim_start_ms p.stim_end_ms p.freq_Hz =
      ⌊(p.stim_end_ms - p.stim_start_ms) * p.freq_Hz / 1000⌋ := by
    rw [n_pulses_helper, pyInt_eq_floor_of_nonneg hxpos]
  refine ⟨(List.range (⌊(p.stim_end_ms - p.stim_start_ms) * p.freq_Hz / 1000⌋).toNat).map
      fun (i : ℕ) => p.stim_start_ms + (i : ℚ) * (1000 / p.freq_Hz),
    ?_, ?_, ?_, ?_, ?_⟩
  · simp only [get_tms_pulse_times, if_neg hfne, hn]
  · simp only [List.length_map, List.length_range]
    exact Int.toNat_of_nonneg (Int.floor_nonneg.mpr hxpos)
  · intro i hi
    have hi' : i < (⌊(p.stim_end_ms - p.stim_start_ms) * p.freq_Hz / 1000⌋).toNat := by
      simpa using hi
    simp [List.getElem?_map, List.getElem?_range, hi']
  · intro i hi
    have hi1 : i + 1 < (⌊(p.stim_end_ms - p.stim_start_ms) * p.freq_Hz / 1000⌋).toNat := by
      simpa using hi
    have hi0 : i < (⌊(p.stim_end_ms - p.stim_start_ms) * p.freq_Hz / 1000⌋).toNat :=
      Nat.lt_of_succ_lt hi1
    refine ⟨p.stim_start_ms + (i : ℚ) * (1000 / p.freq_Hz),
      p.stim_start_ms + ((i + 1 : ℕ) : ℚ) * (1000 / p.freq_Hz), ?_, ?_, ?_, ?_⟩
    · simp [List.getElem?_map, List.getElem?_range, hi0]
    · simp [List.getElem?_map, List.getElem?_range, hi1]
    · have hc : (0 : ℚ) < 1000 / p.freq_Hz := div_pos (by norm_num) hf
      push_cast
      nlinarith [hc]
    · push_cast
      ring
  · intro sec onset amp
    refine ⟨_, _, rfl, rfl, rfl, ?_, by ring⟩
    simp [apply_biphasic_pulse]

/-- C1 witness: the §8 scenario, 40 V/m at 10 Hz over [500, 1500] ms. -/
theorem tms_pulse_scheduler_correct_witness :
    (0 : ℚ) < pW.freq_Hz ∧ pW.stim_start_ms < pW.stim_end_ms ∧
    (∃ ts : List ℚ,
      get_tms_pulse_times ⟨some pW⟩ = some ts ∧
      (ts.length : ℤ) = ⌊(pW.stim_end_ms - pW.stim_start_ms) * pW.freq_Hz / 1000⌋ ∧
      (∀ i : ℕ, i < ts.length →
        ts[i]? = some (pW.stim_start_ms + (i : ℚ) * (1000 / pW.freq_Hz))) ∧
      (∀ i : ℕ, i + 1 < ts.length → ∃ a b : ℚ,
        ts[i]? = some a ∧ ts[i + 1]? = some b ∧
        a < b ∧ b - a = 1000 / pW.freq_Hz) ∧
      (∀ (sec : String) (onset amp : ℚ), ∃ c1 c2 : IClamp,
        apply_biphasic_pulse sec onset amp pW.width_ms = [c1, c2] ∧
        c1.dur = pW.width_ms / 2 ∧ c2.dur = pW.width_ms / 2 ∧
        c2.delay = c1.delay + pW.width_ms / 2 ∧ c1.amp + c2.amp = 0)) :=
  ⟨by norm_num [pW], by norm_num [pW],
   tms_pulse_scheduler_correct pW (by norm_num [pW]) (by norm_num [pW])⟩

/-- C2 counterexample: at `frequencyHz = 0` both the pulse-time helper and
the applicator raise `ZeroDivisionError` (computing `1000.0 / freq_Hz`)
instead of returning an empty pulse sequence. -/
theorem tms_freq_zero_raises :
    get_tms_pulse_times ⟨some pFreq0⟩ = none ∧
    apply_tms_from_params netW ⟨some pFreq0⟩ "HL23PYR" = none := by
  constructor
  · simp [get_tms_pulse_times, pFreq0]
  · simp [apply_tms_from_params, pFreq0]

/-- C2 (amended): for `frequencyHz ≠ 0` with a non-positive product
`(windowEnd - windowStart) * frequencyHz` — in particular a positive
frequency with `windowEnd ≤ windowStart`, or a negative frequency with
`windowEnd ≥ windowStart` — both scheduling operations return an empty
pulse sequence without error (the applicator provided every targeted cell
has at least one section); `frequencyHz = 0` instead raises. -/
theorem tms_empty_schedule_nonpositive_window (p : TmsParams) (net : Network)
    (target_pop : String) (hf : p.freq_Hz ≠ 0)
    (hw : (p.stim_end_ms - p.stim_start_ms) * p.freq_Hz ≤ 0)
    (hsecs : ∀ c ∈ net.cells, c.pop = some target_pop → c.secs ≠ []) :
    get_tms_pulse_times ⟨some p⟩ = some [] ∧
    apply_tms_from_params net ⟨some p⟩ target_pop = some [] := by
  have hx : (p.stim_end_ms - p.stim_start_ms) * p.freq_Hz / 1000 ≤ 0 :=
    div_nonpos_iff.mpr (Or.inr ⟨hw, by norm_num⟩)
  have hn0 : (pyInt ((p.stim_end_ms - p.stim_start_ms) * p.freq_Hz / 1000)).toNat = 0 :=
    Int.toNat_of_nonpos (pyInt_nonpos_of_nonpos hx)
  constructor
  · simp only [get_tms_pulse_times, if_neg hf, n_pulses_helper, hn0, List.range_zero,
      List.map_nil]
  · simp only [apply_tms_from_params, if_neg hf, n_pulses_applicator, hn0]
    obtain ⟨cls, hcls, hlen, -⟩ := collect_clamps_sound p.stim_start_ms (1000 / p.freq_Hz)
      (convert_field_to_current p.ef_amp_V_per_m target_pop "soma") p.width_ms 0
      (net.cells.filter fun c => decide (c.pop = some target_pop))
      (fun c hc => hsecs c (List.mem_filter.mp hc).1
        (of_decide_eq_true (List.mem_filter.mp hc).2))
    have hcl0 : cls = [] := List.length_eq_zero.mp (by simp [hlen])
    rw [hcls, hcl0]

/-- C2 witness for the amended claim: 10 Hz with window [1500, 500]. -/
theorem tms_empty_schedule_nonpositive_window_witness :
    pEmptyWindow.freq_Hz ≠ 0 ∧
    (pEmptyWindow.stim_end_ms - pEmptyWindow.stim_start_ms) * pEmptyWindow.freq_Hz ≤ 0 ∧
    (∀ c ∈ netW.cells, c.pop = some "HL23PYR" → c.secs ≠ []) ∧
    (get_tms_pulse_times ⟨some pEmptyWindow⟩ = some [] ∧
     apply_tms_from_params netW ⟨some pEmptyWindow⟩ "HL23PYR" = some []) :=
  ⟨by norm_num [pEmptyWindow], by norm_num [pEmptyWindow],
   by intro c hc _; simp [netW] at hc; simp [hc],
   tms_empty_schedule_nonpositive_window pEmptyWindow netW "HL23PYR"
     (by norm_num [pEmptyWindow]) (by norm_num [pEmptyWindow])
     (by intro c hc _; simp [netW] at hc; simp [hc])⟩

/-- C7: a config carrying no `tms_params` makes the applicator return an
empty handle list for every network (the result does not depend on the
network at all). -/
theorem apply_tms_no_params_empty :
    ∀ (net : Network) (target_pop : String),
      apply_tms_from_params net ⟨none⟩ target_pop = some [] :=
  fun _ _ => rfl

/-- C8 (amended): the pulse count is computed independently at three sites
(applicator, pulse-time helper, quick-test script) but by the identical
formula `int((end - start) * freq / 1000)`, so all three agree on every
window/frequency combination. -/
theorem n_pulses_three_sites_agree :
    ∀ stim_start_ms stim_end_ms freq_Hz : ℚ,
      n_pulses_applicator stim_start_ms stim_end_ms freq_Hz =
        n_pulses_helper stim_start_ms stim_end_ms freq_Hz ∧
      n_pulses_helper stim_start_ms stim_end_ms freq_Hz =
        n_pulses_quicktest stim_start_ms stim_end_ms freq_Hz :=
  fun _ _ _ => ⟨rfl, rfl⟩

/-- C8 counterexample to the claimed divergence: no window/frequency
combination makes the three pulse-count computations differ. -/
theorem n_pulses_no_divergence :
    ¬ ∃ stim_start_ms stim_end_ms freq_Hz : ℚ,
      n_pulses_applicator stim_start_ms stim_end_ms freq_Hz ≠
        n_pulses_helper stim_start_ms stim_end_ms freq_Hz ∨
      n_pulses_helper stim_start_ms stim_end_ms freq_Hz ≠
        n_pulses_quicktest stim_start_ms stim_end_ms freq_Hz := by
  rintro ⟨s, e, f, h | h⟩ <;> exact h rfl

/-- C9 (amended): with `frequencyHz > 0` (and every targeted cell owning
at least one section) the applicator returns
`2 * max(0, floor((stim_end - stim_start) * freq / 1000)) * C` handles,
where `C` is the number of cells whose population tag equals the target;
each handle is one phase of a biphasic pulse (duration `width / 2`,
amplitude `±amp`). -/
theorem apply_tms_handle_count (net : Network) (p : TmsParams) (target_pop : String)
    (hf : 0 < p.freq_Hz)
    (hsecs : ∀ c ∈ net.cells, c.pop = some target_pop → c.secs ≠ []) :
    ∃ handles : List IClamp,
      apply_tms_from_params net ⟨some p⟩ target_pop = some handles ∧
      handles.length =
        2 * (⌊(p.stim_end_ms - p.stim_start_ms) * p.freq_Hz / 1000⌋).toNat *
          (net.cells.countP fun c => decide (c.pop = some target_pop)) ∧
      ∀ cl ∈ handles, cl.dur = p.width_ms / 2 ∧
        (cl.amp = convert_field_to_current p.ef_amp_V_per_m target_pop "soma" ∨
         cl.amp = -convert_field_to_current p.ef_amp_V_per_m target_pop "soma") := by
  have hfne : p.freq_Hz ≠ 0 := ne_of_gt hf
  obtain ⟨cls, hcls, hlen, hmem⟩ := collect_clamps_sound p.stim_start_ms (1000 / p.freq_Hz)
    (convert_field_to_current p.ef_amp_V_per_m target_pop "soma") p.width_ms
    ((n_pulses_applicator p.stim_start_ms p.stim_end_ms p.freq_Hz).toNat)
    (net.cells.filter fun c => decide (c.pop = some target_pop))
    (fun c hc => hsecs c (List.mem_filter.mp hc).1
      (of_decide_eq_true (List.mem_filter.mp hc).2))
  refine ⟨cls, ?_, ?_, hmem⟩
  · simp only [apply_tms_from_params, if_neg hfne]
    exact hcls
  · have hnn : (n_pulses_applicator p.stim_start_ms p.stim_end_ms p.freq_Hz).toNat =
        (⌊(p.stim_end_ms - p.stim_start_ms) * p.freq_Hz / 1000⌋).toNat := by
      rw [n_pulses_applicator, pyInt_toNat_eq_floor_toNat]
    rw [hlen, hnn, List.countP_eq_length_filter]
    ring

/-- C9 witness: one matching cell, 10 pulses at 10 Hz over [500, 1500],
hence 20 handles. -/
theorem apply_tms_handle_count_witness :
    (0 : ℚ) < pW.freq_Hz ∧
    (∀ c ∈ netW.cells, c.pop = some "HL23PYR" → c.secs ≠ []) ∧
    (∃ handles : List IClamp,
      apply_tms_from_params netW ⟨some pW⟩ "HL23PYR" = some handles ∧
      handles.length =
        2 * (⌊(pW.stim_end_ms - pW.stim_start_ms) * pW.freq_Hz / 1000⌋).toNat *
          (netW.cells.countP fun c => decide (c.pop = some "HL23PYR")) ∧
      ∀ cl ∈ handles, cl.dur = pW.width_ms / 2 ∧
        (cl.amp = convert_field_to_current pW.ef_amp_V_per_m "HL23PYR" "soma" ∨
         cl.amp = -convert_field_to_current pW.ef_amp_V_per_m "HL23PYR" "soma")) :=
  ⟨by norm_num [pW], by intro c hc _; simp [netW] at hc; simp [hc],
   apply_tms_handle_count netW pW "HL23PYR" (by norm_num [pW])
     (by intro c hc _; simp [netW] at hc; simp [hc])⟩

/-- C9 counterexample to the claim as stated: with an inverted window
(`stim_end < stim_start`) the applicator creates `0` handles while
`2 * floor((stim_end - stim_start) * freq / 1000) * C` is negative. -/
theorem apply_tms_handle_count_negative_window :
    apply_tms_from_params netW ⟨some pNegWindow⟩ "HL23PYR" = some [] ∧
    (0 : ℤ) ≠
      2 * ⌊(pNegWindow.stim_end_ms - pNegWindow.stim_start_ms) * pNegWindow.freq_Hz / 1000⌋ *
        (netW.cells.countP fun c => decide (c.pop = some "HL23PYR")) := by
  constructor
  · have hrs : resolve_soma ["soma"] = some "soma" := by decide
    norm_num [apply_tms_from_params, pNegWindow, netW, n_pulses_applicator, pyInt,
      collect_clamps, hrs, pulse_train,
      show Int.toNat (-1) = 0 from rfl]
  · norm_num [pNegWindow, netW,
      show ⌊((900 : ℚ) - 1000) * 10 / 1000⌋ = -1 by norm_num]

/-- C3: `convert_field_to_current` returns the field times a factor
resolved in the specification's three-tier order — exact
`(cellType, compartment)` entry, else the cell-type-level default, else
the global default — where in this code base the cell-type-level default
and the global default are the same constant `0.02`; a present cell type
with an absent compartment resolves through the cell-type tier, and no
input raises. -/
theorem convert_field_three_tier_fallback :
    (∀ (field_Vm : ℚ) (cell_type compartment : String),
      convert_field_to_current field_Vm cell_type compartment =
        field_Vm * spec_resolve_factor cell_type compartment) ∧
    spec_resolve_factor "HL23PV" "apical" = cell_type_default "HL23PV" ∧
    spec_resolve_factor "NOT_A_CELL_TYPE" "soma" = global_default := by
  refine ⟨?_, rfl, rfl⟩
  intro f ct comp
  unfold convert_field_to_current spec_resolve_factor
  cases h1 : geometry.lookup ct with
  | none => simp [global_default]
  | some tbl =>
    cases h2 : tbl.lookup comp with
    | none => simp [h2, cell_type_default]
    | some v => simp [h2]

/-- C4 counterexample: on a record carrying both a one-PYR-cell roster and
a `cellNumber` table claiming 5, `cellCount` answers 5 from the table
while the specification's ladder (roster first) answers 1, which is also
the length of `cellIds`; the two functions do not consult the same ladder
in the same order. -/
theorem cell_count_ladder_mismatch :
    spec_ladder_count rLadder "HL23PYR" = 1 ∧
    (get_population_gids rLadder "HL23PYR").length = 1 ∧
    get_population_cell_count rLadder "HL23PYR" = PyNum.int 5 ∧
    get_population_cell_count rLadder "HL23PYR" ≠
      PyNum.int (spec_ladder_count rLadder "HL23PYR") := by
  refine ⟨?_, ?_, ?_, ?_⟩ <;> decide

/-- C4 (amended): the two resolution ladders differ in order (`cellCount`
prefers the config table, `cellIds` prefers the roster); but on a record
with no roster whose config carries the cell-count table, both resolve
from the table and `len(cellIds) = cellCount` for each population of the
fixed order. -/
theorem cell_count_ids_agree_on_table_tier (r : Record) (pop_name : String) (c : Config)
    (tbl : List (String × ℕ)) (hc : r.config = some c) (ht : c.cellNumber = some tbl)
    (hr : rosterAbsent r) (hp : pop_name ∈ popOrder) :
    get_population_cell_count r pop_name =
      PyNum.int ((get_population_gids r pop_name).length) := by
  rw [gids_eq_walk hc ht hr, gidWalk_length_of_mem tbl pop_name popOrder 0 hp]
  simp only [get_population_cell_count, hc, ht, cntOf]

/-- C4 witness: the table-tier agreement at the concrete partition record
for `HL23PV`. -/
theorem cell_count_ids_agree_on_table_tier_witness :
    rPartition.config = some cfgPartition ∧
    cfgPartition.cellNumber = some tblPartition ∧
    rosterAbsent rPartition ∧
    "HL23PV" ∈ popOrder ∧
    get_population_cell_count rPartition "HL23PV" =
      PyNum.int ((get_population_gids rPartition "HL23PV").length) :=
  ⟨rfl, rfl, by simp [rosterAbsent, rPartition], by decide,
   cell_count_ids_agree_on_table_tier rPartition "HL23PV" cfgPartition tblPartition
     rfl rfl (by simp [rosterAbsent, rPartition]) (by decide)⟩

/-- C5 counterexample: with duration 25 ms and bin size 10 ms the
zero-cell bin grid has `floor(25/10) = 2` bins, not
`ceil(25/10) = 3`. -/
theorem firing_rate_zero_grid_floor_not_ceil :
    compute_firing_rate_histogram rFloorGrid "HL23PYR" 10 = some ([5, 15], [0, 0]) ∧
    ((([(5 : ℚ), 15]).length : ℤ) ≠ ⌈rFloorGrid.duration / 10⌉) := by
  constructor
  · norm_num [compute_firing_rate_histogram, get_population_spikes, get_population_gids,
      gids_fallback, get_population_cell_count, count_from_pops, count_from_cells,
      Record.duration, pyInt, rFloorGrid,
      show Int.toNat 2 = 2 from rfl, show List.range 2 = [0, 1] from rfl,
      show List.replicate 2 (0 : ℚ) = [0, 0] from rfl]
  · have h3 : (⌈rFloorGrid.duration / 10⌉ : ℤ) = 3 := by
      show (⌈(25 : ℚ) / 10⌉ : ℤ) = 3
      rw [Int.ceil_eq_iff]
      norm_num
    rw [h3]
    norm_num

/-- C5 (amended): whenever the population resolves to no spikes or a zero
cell count, `compute_firing_rate_histogram` returns an all-zero series
whose bin grid has `floor(duration/binSize)` bins (not
`ceil(duration/binSize)`; the data path's `np.arange` grid has
`ceil(duration/binSize)` bins, so the two grids coincide exactly when
`binSize` divides `duration`) with centers `i*binSize + binSize/2`, and no
division by zero occurs. -/
theorem firing_rate_zero_cells_grid (r : Record) (pop_name : String) (bin_size : ℚ)
    (hb : 0 < bin_size) (hd : 0 ≤ r.duration)
    (hz : get_population_spikes r pop_name = [] ∨
      get_population_cell_count r pop_name = PyNum.int 0) :
    compute_firing_rate_histogram r pop_name bin_size =
      some ((List.range (⌊r.duration / bin_size⌋).toNat).map
              fun (i : ℕ) => (i : ℚ) * bin_size + bin_size / 2,
            List.replicate (⌊r.duration / bin_size⌋).toNat 0) := by
  have hcond : (get_population_spikes r pop_name).isEmpty = true ∨
      get_population_cell_count r pop_name = PyNum.int 0 := by
    rcases hz with h | h
    · left; simp [h]
    · right; exact h
  have hq : 0 ≤ r.duration / bin_size := div_nonneg hd hb.le
  have hfl : pyInt (r.duration / bin_size) = ⌊r.duration / bin_size⌋ :=
    pyInt_eq_floor_of_nonneg hq
  have hnn : ¬ (⌊r.duration / bin_size⌋ < 0) :=
    not_lt.mpr (Int.floor_nonneg.mpr hq)
  simp only [compute_firing_rate_histogram, if_pos hcond, if_neg hb.ne', hfl, if_neg hnn]

/-- C5 witness: the empty record (default duration 2000 ms) at bin size
50 ms. -/
theorem firing_rate_zero_cells_grid_witness :
    (0 : ℚ) < 50 ∧ (0 : ℚ) ≤ rEmpty.duration ∧
    (get_population_spikes rEmpty "HL23PYR" = [] ∨
      get_population_cell_count rEmpty "HL23PYR" = PyNum.int 0) ∧
    compute_firing_rate_histogram rEmpty "HL23PYR" 50 =
      some ((List.range (⌊rEmpty.duration / 50⌋).toNat).map
              fun (i : ℕ) => (i : ℚ) * 50 + 50 / 2,
            List.replicate (⌊rEmpty.duration / 50⌋).toNat 0) :=
  ⟨by norm_num, by norm_num [Record.duration, rEmpty], Or.inl rfl,
   firing_rate_zero_cells_grid rEmpty "HL23PYR" 50 (by norm_num)
     (by norm_num [Record.duration, rEmpty]) (Or.inl rfl)⟩

/-- C6 counterexample: on the §8 round-trip record the rate series is not
`[100, 50]` Hz. -/
theorem firing_rate_roundtrip_not_100_50 :
    compute_firing_rate_histogram rRoundTrip "HL23PYR" 10 ≠ some ([5, 15], [100, 50]) := by
  norm_num [compute_firing_rate_histogram, get_population_spikes, get_population_gids,
    gids_fallback, get_population_cell_count, count_from_pops, count_from_cells,
    Record.duration, pyInt, rRoundTrip, np_arange, hist_counts,
    show Int.toNat 3 = 3 from rfl, show List.range 3 = [0, 1, 2] from rfl,
    show (([(0, 10), (10, 20)] : List (ℚ × ℚ)).enum = [(0, (0, 10)), (1, (10, 20))]) from rfl,
    List.countP_cons, List.countP_nil]

/-- C6 (amended): the §8 round-trip record — spikes `[5, 12, 12]`, ids
`[0, 0, 1]`, duration 20 ms, population `{0, 1}` of count 2, bin size
10 ms — yields per-bin counts `[1, 2]` and rates `[50, 100]` Hz (the
single 5 ms spike falls in bin `[0, 10)`, the two 12 ms spikes in bin
`[10, 20]`). -/
theorem firing_rate_roundtrip_concrete :
    compute_firing_rate_histogram rRoundTrip "HL23PYR" 10 = some ([5, 15], [50, 100]) := by
  norm_num [compute_firing_rate_histogram, get_population_spikes, get_population_gids,
    gids_fallback, get_population_cell_count, count_from_pops, count_from_cells,
    Record.duration, pyInt, rRoundTrip, np_arange, hist_counts,
    show Int.toNat 3 = 3 from rfl, show List.range 3 = [0, 1, 2] from rfl,
    show (([(0, 10), (10, 20)] : List (ℚ × ℚ)).enum = [(0, (0, 10)), (1, (10, 20))]) from rfl,
    List.countP_cons, List.countP_nil]

/-- C10: gid ranges inferred from the cell-count table are contiguous,
start at 0, follow the fixed order PYR, PV, SST, VIP, are pairwise
disjoint (their concatenation has no duplicates), their union is exactly
`[0, total)`, and a population outside the fixed order resolves to the
empty list. -/
theorem gid_fallback_contiguous_partition (r : Record) (c : Config)
    (tbl : List (String × ℕ)) (hc : r.config = some c) (ht : c.cellNumber = some tbl)
    (hr : rosterAbsent r) :
    get_population_gids r "HL23PYR" = intRange 0 (cntOf tbl "HL23PYR") ∧
    get_population_gids r "HL23PV" = intRange (cntOf tbl "HL23PYR") (cntOf tbl "HL23PV") ∧
    get_population_gids r "HL23SST" =
      intRange (cntOf tbl "HL23PYR" + cntOf tbl "HL23PV") (cntOf tbl "HL23SST") ∧
    get_population_gids r "HL23VIP" =
      intRange (cntOf tbl "HL23PYR" + cntOf tbl "HL23PV" + cntOf tbl "HL23SST")
        (cntOf tbl "HL23VIP") ∧
    get_population_gids r "HL23PYR" ++ get_population_gids r "HL23PV" ++
        get_population_gids r "HL23SST" ++ get_population_gids r "HL23VIP" =
      intRange 0 (cntOf tbl "HL23PYR" + cntOf tbl "HL23PV" + cntOf tbl "HL23SST" +
        cntOf tbl "HL23VIP") ∧
    (get_population_gids r "HL23PYR" ++ get_population_gids r "HL23PV" ++
        get_population_gids r "HL23SST" ++ get_population_gids r "HL23VIP").Nodup ∧
    (∀ pop_name : String, pop_name ∉ popOrder → get_population_gids r pop_name = []) := by
  have h1 : get_population_gids r "HL23PYR" = intRange 0 (cntOf tbl "HL23PYR") := by
    rw [gids_eq_walk hc ht hr]
    simp [gidWalk, popOrder, intRange, cntOf]
  have h2 : get_population_gids r "HL23PV" =
      intRange (cntOf tbl "HL23PYR") (cntOf tbl "HL23PV") := by
    rw [gids_eq_walk hc ht hr]
    simp [gidWalk, popOrder, intRange, cntOf]
  have h3 : get_population_gids r "HL23SST" =
      intRange (cntOf tbl "HL23PYR" + cntOf tbl "HL23PV") (cntOf tbl "HL23SST") := by
    rw [gids_eq_walk hc ht hr]
    simp [gidWalk, popOrder, intRange, cntOf]
  have h4 : get_population_gids r "HL23VIP" =
      intRange (cntOf tbl "HL23PYR" + cntOf tbl "HL23PV" + cntOf tbl "HL23SST")
        (cntOf tbl "HL23VIP") := by
    rw [gids_eq_walk hc ht hr]
    simp [gidWalk, popOrder, intRange, cntOf]
  have e1 : intRange 0 (cntOf tbl "HL23PYR") ++
      intRange (cntOf tbl "HL23PYR") (cntOf tbl "HL23PV") =
      intRange 0 (cntOf tbl "HL23PYR" + cntOf tbl "HL23PV") := by
    have := intRange_append 0 (cntOf tbl "HL23PYR") (cntOf tbl "HL23PV")
    rwa [Nat.zero_add] at this
  have e2 : intRange 0 (cntOf tbl "HL23PYR" + cntOf tbl "HL23PV") ++
      intRange (cntOf tbl "HL23PYR" + cntOf tbl "HL23PV") (cntOf tbl "HL23SST") =
      intRange 0 (cntOf tbl "HL23PYR" + cntOf tbl "HL23PV" + cntOf tbl "HL23SST") := by
    have := intRange_append 0 (cntOf tbl "HL23PYR" + cntOf tbl "HL23PV")
      (cntOf tbl "HL23SST")
    rwa [Nat.zero_add] at this
  have e3 : intRange 0 (cntOf tbl "HL23PYR" + cntOf tbl "HL23PV" + cntOf tbl "HL23SST") ++
      intRange (cntOf tbl "HL23PYR" + cntOf tbl "HL23PV" + cntOf tbl "HL23SST")
        (cntOf tbl "HL23VIP") =
      intRange 0 (cntOf tbl "HL23PYR" + cntOf tbl "HL23PV" + cntOf tbl "HL23SST" +
        cntOf tbl "HL23VIP") := by
    have := intRange_append 0
      (cntOf tbl "HL23PYR" + cntOf tbl "HL23PV" + cntOf tbl "HL23SST")
      (cntOf tbl "HL23VIP")
    rwa [Nat.zero_add] at this
  have hu : get_population_gids r "HL23PYR" ++ get_population_gids r "HL23PV" ++
      get_population_gids r "HL23SST" ++ get_population_gids r "HL23VIP" =
      intRange 0 (cntOf tbl "HL23PYR" + cntOf tbl "HL23PV" + cntOf tbl "HL23SST" +
        cntOf tbl "HL23VIP") := by
    rw [h1, h2, h3, h4, e1, e2, e3]
  refine ⟨h1, h2, h3, h4, hu, ?_, ?_⟩
  · rw [hu]
    exact intRange_nodup _ _
  · intro pop_name hpop
    rw [gids_eq_walk hc ht hr]
    exact gidWalk_not_mem tbl pop_name popOrder 0 hpop

/-- C10 witness: the partition record with counts 2 / 1 / 1 / 1. -/
theorem gid_fallback_contiguous_partition_witness :
    rPartition.config = some cfgPartition ∧
    cfgPartition.cellNumber = some tblPartition ∧
    rosterAbsent rPartition ∧
    (get_population_gids rPartition "HL23PYR" =
        intRange 0 (cntOf tblPartition "HL23PYR") ∧
      get_population_gids rPartition "HL23PV" =
        intRange (cntOf tblPartition "HL23PYR") (cntOf tblPartition "HL23PV") ∧
      get_population_gids rPartition "HL23SST" =
        intRange (cntOf tblPartition "HL23PYR" + cntOf tblPartition "HL23PV")
          (cntOf tblPartition "HL23SST") ∧
      get_population_gids rPartition "HL23VIP" =
        intRange (cntOf tblPartition "HL23PYR" + cntOf tblPartition "HL23PV" +
          cntOf tblPartition "HL23SST") (cntOf tblPartition "HL23VIP") ∧
      get_population_gids rPartition "HL23PYR" ++ get_population_gids rPartition "HL23PV" ++
          get_population_gids rPartition "HL23SST" ++
          get_population_gids rPartition "HL23VIP" =
        intRange 0 (cntOf tblPartition "HL23PYR" + cntOf tblPartition "HL23PV" +
          cntOf tblPartition "HL23SST" + cntOf tblPartition "HL23VIP") ∧
      (get_population_gids rPartition "HL23PYR" ++ get_population_gids rPartition "HL23PV" ++
          get_population_gids rPartition "HL23SST" ++
          get_population_gids rPartition "HL23VIP").Nodup ∧
      (∀ pop_name : String, pop_name ∉ popOrder →
        get_population_gids rPartition pop_name = [])) :=
  ⟨rfl, rfl, by simp [rosterAbsent, rPartition],
   gid_fallback_contiguous_partition rPartition cfgPartition tblPartition rfl rfl
     (by simp [rosterAbsent, rPartition])⟩
